import Mathlib

/-!
Shallow embedding of `src/new_server.py` (IoT plant-irrigation server).

Numeric values are modelled as rationals (the Python code uses floats; no
claim here depends on float-specific behaviour).  The Python `deque(maxlen=5)`
buffers are lists that drop from the front on overflow.  The external weather
HTTP call is modelled by a `FetchResult` argument describing the outcome of
`requests.get(...).json()`; wall-clock `time.time()` is a rational `now`
argument.  `np.exp` is abstracted as an arbitrary function argument
`fexp : Rat -> Rat`, since no claim depends on the value of the exponential,
only on comparisons with the resulting vpd.
-/

namespace IoTServer

/-- The mutable fields of the Python `PlantBrain` object (lines 21-43). -/
structure PlantState where
  soil_buffer : List ℚ
  temp_buffer : List ℚ
  light_buffer : List ℚ
  last_sent_temp : ℚ
  last_sent_soil : ℚ
  pump_status : Bool
  pump_lock : Bool
  last_pump_time : ℚ
  alert_message : String
  battery_level : ℕ
  weather_condition : String
  outside_temp : ℚ
  outside_humidity : ℚ
  last_weather_fetch : ℚ
  deriving Repr, DecidableEq

/-- `PlantBrain.__init__` (lines 22-43). -/
def initState : PlantState :=
  { soil_buffer := []
    temp_buffer := []
    light_buffer := []
    last_sent_temp := -999
    last_sent_soil := -999
    pump_status := false
    pump_lock := false
    last_pump_time := 0
    alert_message := "System Normal"
    battery_level := 100
    weather_condition := "Unknown"
    outside_temp := 30
    outside_humidity := 70
    last_weather_fetch := 0 }

/-- `deque(maxlen=5).append`: append on the right, dropping from the left
whatever exceeds the capacity of 5 (lines 24-26, 84-86). -/
def dequeAppend (w : List ℚ) (x : ℚ) : List ℚ :=
  let w2 := w ++ [x]
  w2.drop (w2.length - 5)

/-- `sum(buffer) / len(buffer)` — the moving average (lines 92-94). -/
def bufMean (w : List ℚ) : ℚ :=
  w.sum / w.length

/-- Outcome of `requests.get(WEATHER_API_URL)` followed by `r.json()`
(lines 51-52).  `error` is any raised exception (network error, malformed
payload that fails to parse).  `response cod weatherMain mainTemp mainHum`
is a parsed JSON document: `cod` is `data.get("cod")` (`none` when the key
is absent or not an integer), `weatherMain` is `data['weather'][0]['main']`
(`none` when any of those lookups would raise), `mainTemp` is
`data['main']['temp']` and `mainHum` is `data['main']['humidity']`
(each `none` when the lookup would raise a KeyError). -/
inductive FetchResult where
  | error : FetchResult
  | response (cod : Option ℤ) (weatherMain : Option String)
      (mainTemp : Option ℚ) (mainHum : Option ℚ) : FetchResult
  deriving Repr, DecidableEq

/-- `PlantBrain.get_weather` (lines 45-62).  Returns the updated state and
whether an external fetch was issued.  The Python field accesses on the
parsed JSON happen in source order — condition (line 54), then temp
(line 55), then humidity (line 56) — and a KeyError at any point is caught
by the bare `except:`, which sets the condition to the fallback "Clouds"
(line 59), discarding none of the assignments already made.  In every path
past the throttle, `last_weather_fetch` is set to `now` (line 62). -/
def get_weather (st : PlantState) (now : ℚ) (r : FetchResult) :
    PlantState × Bool :=
  if now - st.last_weather_fetch < 600 then (st, false)
  else
    let st2 :=
      match r with
      | .error => { st with weather_condition := "Clouds" }
      | .response cod weatherMain mainTemp mainHum =>
        if cod = some 200 then
          match weatherMain with
          | none => { st with weather_condition := "Clouds" }
          | some c =>
            match mainTemp with
            | none => { st with weather_condition := "Clouds" }
            | some t =>
              match mainHum with
              | none =>
                { st with weather_condition := "Clouds", outside_temp := t }
              | some h =>
                { st with
                    weather_condition := c
                    outside_temp := t
                    outside_humidity := h }
        else st
    ({ st2 with last_weather_fetch := now }, true)

/-- `PlantBrain.calculate_vpd` (lines 64-68), with `np.exp` abstracted as
the argument `fexp`. -/
def calculate_vpd (fexp : ℚ → ℚ) (temp humidity : ℚ) : ℚ :=
  let svp := 0.6108 * fexp (17.27 * temp / (temp + 237.3))
  let avp := svp * (humidity / 100)
  svp - avp

/-- `round(x, 2)` on the vpd (line 166), modelled as rational rounding to
2 decimal places (Python rounds floats half-to-even; no claim depends on
tie behaviour). -/
def round2 (x : ℚ) : ℚ := (round (x * 100) : ℤ) / 100

/-- `round(x, 1)` on the smoothed sensor values (lines 157-159). -/
def round1 (x : ℚ) : ℚ := (round (x * 10) : ℤ) / 10

/-- The incoming `data` dict of the `sensor_data` handler.  Each field is
`none` when the key is absent from the dict (`data['...']` then raises a
KeyError); the code itself never checks presence or type. -/
structure SensorMsg where
  soil_moisture : Option ℚ
  temperature : Option ℚ
  light_intensity : Option ℚ
  nitrogen : Option ℚ
  phosphorus : Option ℚ
  potassium : Option ℚ
  deriving Repr, DecidableEq

/-- Safety layer (lines 107-124): the if/elif chain.  Returns
`(pump_lock, decision, alert_message)`.  The nitrogen/potassium dict
accesses happen lazily, only when the first two rules did not fire, and
`or` short-circuits, so a missing key surfaces as a KeyError from inside
the chain, before any assignment of that branch. -/
def safety_layer (avg_soil avg_temp : ℚ) (nitrogen potassium : Option ℚ) :
    Except String (Bool × String × String) :=
  if avg_soil > 80 then
    .ok (true, "Saturation Lock", "Soil too wet! Pump disabled.")
  else if avg_temp > 35 then
    .ok (true, "Heat Stress", "High Temp! Watering paused.")
  else
    match nitrogen with
    | none => .error "KeyError: nitrogen"
    | some n =>
      if n > 200 then
        .ok (true, "Salinity Risk", "Nutrient Burn Risk! Flush soil.")
      else
        match potassium with
        | none => .error "KeyError: potassium"
        | some k =>
          if k > 200 then
            .ok (true, "Salinity Risk", "Nutrient Burn Risk! Flush soil.")
          else
            .ok (false, "Optimal", "System Normal")

/-- Result of the intelligence layer (lines 129-144). -/
structure IntelOut where
  vpd : ℚ
  watering_threshold : ℚ
  decision : String
  pump_request : Bool
  deriving Repr, DecidableEq

/-- Intelligence layer (lines 129-144), evaluated only when the lock is
off: compute the vpd, pick the watering threshold (Rain ⇒ 20, else
vpd > 1.2 ⇒ 50, else the default 40) with its decision label, then the
critical check `avg_soil < watering_threshold` requests the pump and
overrides the label.  `decision0` is the label the safety layer left
(always "Optimal" on the path that reaches this layer). -/
def intelligence_layer (fexp : ℚ → ℚ) (avg_soil avg_temp outside_humidity : ℚ)
    (weather_condition decision0 : String) : IntelOut :=
  let vpd := calculate_vpd fexp avg_temp outside_humidity
  let tw : ℚ × String :=
    if weather_condition = "Rain" then (20, "Raining (Passive)")
    else if vpd > 1.2 then (50, "High Transpiration")
    else (40, decision0)
  if avg_soil < tw.1 then
    { vpd := vpd, watering_threshold := tw.1
      decision := "Critical: Pulse Irrigation", pump_request := true }
  else
    { vpd := vpd, watering_threshold := tw.1
      decision := tw.2, pump_request := false }

/-- Pump pulse logic and final pump assignment (lines 140-151).
`pump_command0` is true exactly when the lock is off and the critical
check fired (`avg_soil < watering_threshold`).  Returns
`(pump_status, last_pump_time, timeout_fired)`:
  * if the pump was idle, the activation timer restarts at `now`
    (line 146);
  * if more than 10 seconds have elapsed since the activation started,
    the command is cancelled and the timeout alert fires (lines 147-149);
  * `plant.pump_status = pump_command` runs in every case (line 151). -/
def pump_update (pump_status : Bool) (last_pump_time : ℚ)
    (pump_command0 : Bool) (now : ℚ) : Bool × ℚ × Bool :=
  if pump_command0 then
    let lpt := if pump_status then last_pump_time else now
    if now - lpt > 10 then (false, lpt, true)
    else (true, lpt, false)
  else (false, last_pump_time, false)

/-- The `output_payload` dict (lines 154-174).  `timestamp` keeps the raw
clock value (the source formats it with `time.strftime`), and `npk` keeps
the raw `(nitrogen, phosphorus, potassium)` values that the source
formats into the f-string `"{n}-{p}-{k}"`; string formatting of numbers
is outside the model. -/
structure OutputPayload where
  timestamp : ℚ
  soil : ℚ
  temp : ℚ
  light : ℚ
  npk : ℚ × ℚ × ℚ
  weather_condition : String
  weather_temp : ℚ
  weather_humidity : ℚ
  vpd : ℚ
  pump_active : Bool
  algorithm_state : String
  alert : String
  battery_level : ℕ
  deriving Repr, DecidableEq

/-- The `sensor_data` socket-event handler (lines 78-176), one cycle.
Returns the state after the cycle together with either the emitted
payload (`.ok (some out)`), an early silent return (`.ok none`,
line 89), or an uncaught Python exception (`.error ...`) — the handler
has no try/except of its own, so a KeyError escapes it, leaving behind
whatever state mutations already happened. -/
def sensor_data (fexp : ℚ → ℚ) (st : PlantState) (msg : SensorMsg)
    (now : ℚ) (r : FetchResult) :
    PlantState × Except String (Option OutputPayload) :=
  match msg.soil_moisture with
  | none => (st, .error "KeyError: soil_moisture")
  | some soil =>
    let st1 := { st with soil_buffer := dequeAppend st.soil_buffer soil }
    match msg.temperature with
    | none => (st1, .error "KeyError: temperature")
    | some temp =>
      let st2 := { st1 with temp_buffer := dequeAppend st1.temp_buffer temp }
      match msg.light_intensity with
      | none => (st2, .error "KeyError: light_intensity")
      | some light =>
        let st3 :=
          { st2 with light_buffer := dequeAppend st2.light_buffer light }
        if st3.soil_buffer.length < 2 then (st3, .ok none)
        else
          let avg_soil := bufMean st3.soil_buffer
          let avg_temp := bufMean st3.temp_buffer
          let avg_light := bufMean st3.light_buffer
          let st4 :=
            { st3 with last_sent_temp := avg_temp, last_sent_soil := avg_soil }
          let st5 := (get_weather st4 now r).1
          match safety_layer avg_soil avg_temp msg.nitrogen msg.potassium with
          | .error e => (st5, .error e)
          | .ok (lock, decision1, alert1) =>
            let st6 := { st5 with pump_lock := lock, alert_message := alert1 }
            let t3 : Option ℚ × String × Bool :=
              if lock then (none, decision1, false)
              else
                let il := intelligence_layer fexp avg_soil avg_temp
                  st6.outside_humidity st6.weather_condition decision1
                (some il.vpd, il.decision, il.pump_request)
            let pu := pump_update st6.pump_status st6.last_pump_time t3.2.2 now
            let st7 :=
              { st6 with
                  pump_status := pu.1
                  last_pump_time := pu.2.1
                  alert_message :=
                    if pu.2.2 then "Pump Timeout (Safety)"
                    else st6.alert_message }
            match msg.nitrogen with
            | none => (st7, .error "KeyError: nitrogen")
            | some n =>
              match msg.phosphorus with
              | none => (st7, .error "KeyError: phosphorus")
              | some p =>
                match msg.potassium with
                | none => (st7, .error "KeyError: potassium")
                | some k =>
                  let out : OutputPayload :=
                    { timestamp := now
                      soil := round1 avg_soil
                      temp := round1 avg_temp
                      light := round1 avg_light
                      npk := (n, p, k)
                      weather_condition := st7.weather_condition
                      weather_temp := st7.outside_temp
                      weather_humidity := st7.outside_humidity
                      vpd := round2 ((t3.1).getD 0)
                      pump_active := st7.pump_status
                      algorithm_state := t3.2.1
                      alert := st7.alert_message
                      battery_level := 85 }
                  (st7, .ok (some out))

/-- The contents of one smoothing buffer after appending the samples `xs`
one by one (repeated `plant.<channel>_buffer.append(...)`, lines 84-86)
starting from the empty deque of `__init__`. -/
def windowFold (xs : List ℚ) : List ℚ :=
  xs.foldl dequeAppend []

/-- Iterated pump-controller scenario for a continuous activation request:
each cycle arrives at the given clock time with `pump_command` initially
true (lock off, critical check fired), exactly the situation of
lines 140-151.  Produces the per-cycle trace of
`(pump_status, alert_message)` — on every lock-free cycle the safety
layer has just set the alert to "System Normal" (line 124) and the pulse
timeout may override it (line 149) — together with the final
`(pump_status, last_pump_time)`. -/
def pump_run : Bool → ℚ → List ℚ → List (Bool × String) × Bool × ℚ
  | s, l, [] => ([], s, l)
  | s, l, t :: ts =>
    let pu := pump_update s l true t
    let rest := pump_run pu.1 pu.2.1 ts
    ((pu.1, if pu.2.2 then "Pump Timeout (Safety)" else "System Normal")
      :: rest.1, rest.2)

/-! ### Helper lemmas -/

theorem dequeAppend_length_le (w : List ℚ) (x : ℚ) :
    (dequeAppend w x).length ≤ 5 := by
  simp only [dequeAppend, List.length_drop, List.length_append]
  omega

theorem foldl_dequeAppend_eq (xs : List ℚ) :
    ∀ w : List ℚ, w.length ≤ 5 →
      List.foldl dequeAppend w xs =
        (w ++ xs).drop ((w ++ xs).length - 5) := by
  induction xs with
  | nil =>
    intro w hw
    simp [Nat.sub_eq_zero_of_le hw]
  | cons x xs ih =>
    intro w hw
    rw [List.foldl_cons, ih (dequeAppend w x) (dequeAppend_length_le w x)]
    have hd : dequeAppend w x = (w ++ [x]).drop ((w ++ [x]).length - 5) := rfl
    rw [hd, ← List.drop_append_of_le_length (by omega), List.drop_drop]
    have hlist : w ++ [x] ++ xs = w ++ x :: xs := by simp
    rw [hlist]
    congr 1
    simp only [List.length_drop, List.length_append, List.length_cons,
      List.length_nil]
    omega

theorem windowFold_eq (xs : List ℚ) :
    windowFold xs = xs.drop (xs.length - 5) := by
  have h := foldl_dequeAppend_eq xs [] (by simp)
  simpa [windowFold] using h

theorem pump_run_steady (ts : List ℚ) (h : ∀ u ∈ ts, u ≤ 10) :
    pump_run true 0 ts =
      (ts.map fun _ => (true, "System Normal"), true, 0) := by
  induction ts with
  | nil => rfl
  | cons t ts ih =>
    have ht : ¬ 10 < t := not_lt.2 (h t (List.mem_cons_self t ts))
    simp [pump_run, pump_update, sub_zero, ht,
      ih fun u hu => h u (List.mem_cons_of_mem t hu)]

theorem pump_run_append (xs ys : List ℚ) : ∀ (s : Bool) (l : ℚ),
    pump_run s l (xs ++ ys) =
      ((pump_run s l xs).1 ++
        (pump_run (pump_run s l xs).2.1 (pump_run s l xs).2.2 ys).1,
       (pump_run (pump_run s l xs).2.1 (pump_run s l xs).2.2 ys).2) := by
  induction xs with
  | nil =>
    intro s l
    simp [pump_run]
  | cons x xs ih =>
    intro s l
    simp [pump_run, ih]

theorem get_weather_throttled (st : PlantState) (now : ℚ) (r : FetchResult)
    (h : now - st.last_weather_fetch < 600) :
    get_weather st now r = (st, false) := by
  unfold get_weather
  rw [if_pos h]

theorem get_weather_fetched (st : PlantState) (now : ℚ) (r : FetchResult)
    (h : ¬ now - st.last_weather_fetch < 600) :
    (get_weather st now r).1.last_weather_fetch = now ∧
      (get_weather st now r).2 = true := by
  unfold get_weather
  rw [if_neg h]
  exact ⟨rfl, rfl⟩

theorem get_weather_preserves (st : PlantState) (now : ℚ) (r : FetchResult) :
    (get_weather st now r).1.soil_buffer = st.soil_buffer ∧
    (get_weather st now r).1.temp_buffer = st.temp_buffer ∧
    (get_weather st now r).1.light_buffer = st.light_buffer ∧
    (get_weather st now r).1.last_sent_temp = st.last_sent_temp ∧
    (get_weather st now r).1.last_sent_soil = st.last_sent_soil ∧
    (get_weather st now r).1.pump_status = st.pump_status ∧
    (get_weather st now r).1.pump_lock = st.pump_lock ∧
    (get_weather st now r).1.last_pump_time = st.last_pump_time ∧
    (get_weather st now r).1.alert_message = st.alert_message := by
  unfold get_weather
  split
  · simp
  · rcases r with _ | ⟨cod, wm, mt, mh⟩
    · simp
    · dsimp only
      split
      · rcases wm with _ | c
        · simp
        · rcases mt with _ | t
          · simp
          · rcases mh with _ | h2 <;> simp
      · simp

theorem intelligence_layer_vpd (fexp : ℚ → ℚ) (a t hu : ℚ) (c d0 : String) :
    (intelligence_layer fexp a t hu c d0).vpd = calculate_vpd fexp t hu := by
  by_cases h1 : c = "Rain"
  · by_cases h3 : a < (20 : ℚ) <;> simp [intelligence_layer, h1, h3]
  · by_cases h2 : calculate_vpd fexp t hu > 1.2
    · by_cases h3 : a < (50 : ℚ) <;> simp [intelligence_layer, h1, h2, h3]
    · by_cases h3 : a < (40 : ℚ) <;> simp [intelligence_layer, h1, h2, h3]

theorem intelligence_layer_request_decision (fexp : ℚ → ℚ) (a t hu : ℚ)
    (c d0 : String) :
    (intelligence_layer fexp a t hu c d0).pump_request = true →
      (intelligence_layer fexp a t hu c d0).decision =
        "Critical: Pulse Irrigation" := by
  by_cases h1 : c = "Rain"
  · by_cases h3 : a < (20 : ℚ) <;> simp [intelligence_layer, h1, h3]
  · by_cases h2 : calculate_vpd fexp t hu > 1.2
    · by_cases h3 : a < (50 : ℚ) <;> simp [intelligence_layer, h1, h2, h3]
    · by_cases h3 : a < (40 : ℚ) <;> simp [intelligence_layer, h1, h2, h3]

/-- Facts about every successfully processed cycle, extracted once and
shared by the claim theorems below: with the lock on, the pump is off and
the published vpd is the fallback 0 (the vpd is never computed); with the
lock off, the published vpd is the rounded vpd computed from the smoothed
temperature (recorded in `last_sent_temp`) and the cached outside
humidity, and a running pump implies the critical-irrigation label. -/
theorem sensor_data_ok_facts (fexp : ℚ → ℚ) (st : PlantState)
    (msg : SensorMsg) (now : ℚ) (r : FetchResult) (st2 : PlantState)
    (out : OutputPayload)
    (h : sensor_data fexp st msg now r = (st2, .ok (some out))) :
    (st2.pump_lock = true → out.pump_active = false ∧ out.vpd = 0) ∧
    (st2.pump_lock = false →
      out.vpd = round2 (calculate_vpd fexp st2.last_sent_temp
        st2.outside_humidity) ∧
      (out.pump_active = true →
        out.algorithm_state = "Critical: Pulse Irrigation")) := by
  obtain ⟨so, te, li, ni, ph, po⟩ := msg
  rcases so with _ | soil
  · simp [sensor_data] at h
  rcases te with _ | temp
  · simp [sensor_data] at h
  rcases li with _ | light
  · simp [sensor_data] at h
  simp only [sensor_data] at h
  by_cases hlen : (dequeAppend st.soil_buffer soil).length < 2
  · rw [if_pos hlen] at h
    simp at h
  rw [if_neg hlen] at h
  cases hsafe : safety_layer (bufMean (dequeAppend st.soil_buffer soil))
      (bufMean (dequeAppend st.temp_buffer temp)) ni po with
  | error e =>
    rw [hsafe] at h
    simp at h
  | ok v =>
    obtain ⟨lock, d1, a1⟩ := v
    rw [hsafe] at h
    rcases ni with _ | n
    · simp at h
    rcases ph with _ | p
    · simp at h
    rcases po with _ | k
    · simp at h
    simp only [Prod.mk.injEq, Except.ok.injEq, Option.some.injEq] at h
    obtain ⟨hst, hout⟩ := h
    subst hst
    subst hout
    cases lock with
    | true =>
      refine ⟨fun _ => ⟨?_, ?_⟩, fun hf => by simp at hf⟩
      · simp [pump_update]
      · simp [round2]
    | false =>
      refine ⟨fun hf => by simp at hf, fun _ => ⟨?_, ?_⟩⟩
      · show round2 _ = round2 _
        rw [(get_weather_preserves _ now r).2.2.2.1]
        rw [intelligence_layer_vpd]
        simp
      · intro hp
        rcases hreq : (intelligence_layer fexp
            (bufMean (dequeAppend st.soil_buffer soil))
            (bufMean (dequeAppend st.temp_buffer temp))
            ((get_weather _ now r).1.outside_humidity)
            ((get_weather _ now r).1.weather_condition) d1).pump_request with
          _ | _
        · rw [hreq] at hp
          simp [pump_update] at hp
        · show (intelligence_layer _ _ _ _ _ _).decision =
            "Critical: Pulse Irrigation"
          exact intelligence_layer_request_decision _ _ _ _ _ _ hreq

/-! ### Claim theorems -/

/-- Claim C1, counterexample.  At a refresh past the 600-second throttle
whose external fetch returns a well-formed response with a non-ok status
(`cod = 404`), the fetch is issued but the stored weather condition keeps
its previous value `"Unknown"`: it is NOT set to the fallback `"Clouds"`
as the claim states for every kind of failure. -/
theorem get_weather_nonok_keeps_condition :
    (get_weather initState 1000
        (.response (some 404) none none none)).2 = true ∧
    (get_weather initState 1000
        (.response (some 404) none none none)).1.weather_condition =
      "Unknown" := by
  have h : ¬ (1000 : ℚ) - initState.last_weather_fetch < 600 := by
    norm_num [initState]
  unfold get_weather
  rw [if_neg h]
  exact ⟨rfl, rfl⟩

/-- Claim C1, amended.  For a refresh past the 600-second throttle whose
external fetch fails: on a raised exception (network error or payload
that fails to parse) the condition is set to `"Clouds"`; on a response
with a non-ok status nothing is updated; on an ok-status response with a
missing condition or temperature field the condition is set to
`"Clouds"`; on an ok-status response whose humidity field is missing the
condition is set to `"Clouds"` after `outside_temp` has already been
updated.  In every case `outside_humidity` keeps its previous value, the
fetch timestamp is set to the current time, the fetch is issued, and no
error is returned (the handler never raises). -/
theorem get_weather_failure_behavior (st : PlantState) (now : ℚ)
    (h : ¬ now - st.last_weather_fetch < 600) :
    (get_weather st now .error =
      ({ st with weather_condition := "Clouds", last_weather_fetch := now },
        true)) ∧
    (∀ cod wm mt mh, cod ≠ some 200 →
      get_weather st now (.response cod wm mt mh) =
        ({ st with last_weather_fetch := now }, true)) ∧
    (∀ mt mh, get_weather st now (.response (some 200) none mt mh) =
      ({ st with weather_condition := "Clouds", last_weather_fetch := now },
        true)) ∧
    (∀ c mh, get_weather st now (.response (some 200) (some c) none mh) =
      ({ st with weather_condition := "Clouds", last_weather_fetch := now },
        true)) ∧
    (∀ c t, get_weather st now (.response (some 200) (some c) (some t) none) =
      ({ st with
          weather_condition := "Clouds"
          outside_temp := t
          last_weather_fetch := now }, true)) := by
  refine ⟨?_, ?_, ?_, ?_, ?_⟩
  · unfold get_weather
    rw [if_neg h]
  · intro cod wm mt mh hcod
    unfold get_weather
    rw [if_neg h]
    simp [hcod]
  · intro mt mh
    unfold get_weather
    rw [if_neg h]
    rfl
  · intro c mh
    unfold get_weather
    rw [if_neg h]
    rfl
  · intro c t
    unfold get_weather
    rw [if_neg h]
    rfl

/-- Witness for C1's amended theorem at the concrete state `initState`
and time 600. -/
theorem get_weather_failure_behavior_witness :
    get_weather initState 600 .error =
      ({ initState with
          weather_condition := "Clouds"
          last_weather_fetch := 600 }, true) ∧
    get_weather initState 600 (.response (some 404) none none none) =
      ({ initState with last_weather_fetch := 600 }, true) := by
  have h := get_weather_failure_behavior initState 600 (by norm_num [initState])
  exact ⟨h.1, h.2.1 (some 404) none none none (by decide)⟩

/-- Claim C6, confirmed.  The weather cache triggers at most one external
fetch per 600 seconds regardless of the outcome of the previous refresh:
a call with `now - fetched_at < 600` returns the cached snapshot
unchanged and issues no fetch; a call 1 second after a fetch issues no
fetch and changes nothing; a call 601 seconds after a fetch issues a
fetch again — whatever the results `r1`, `r2`, `r3` of the external
calls are. -/
theorem weather_throttle (st : PlantState) (t : ℚ) (r1 r2 r3 : FetchResult)
    (h : ¬ t - st.last_weather_fetch < 600) :
    (∀ (s : PlantState) (u : ℚ) (r : FetchResult),
      u - s.last_weather_fetch < 600 → get_weather s u r = (s, false)) ∧
    (get_weather st t r1).2 = true ∧
    get_weather (get_weather st t r1).1 (t + 1) r2 =
      ((get_weather st t r1).1, false) ∧
    (get_weather (get_weather st t r1).1 (t + 601) r3).2 = true := by
  have hfetch := get_weather_fetched st t r1 h
  refine ⟨fun s u r hu => get_weather_throttled s u r hu, hfetch.2, ?_, ?_⟩
  · exact get_weather_throttled _ _ _ (by rw [hfetch.1]; norm_num)
  · exact (get_weather_fetched _ _ _ (by rw [hfetch.1]; norm_num)).2

/-- Witness for C6 at the concrete state `initState` and time 600:
the call at 600 fetches, the call at 601 does not, the call at 1201
fetches again. -/
theorem weather_throttle_witness :
    (get_weather initState 600 .error).2 = true ∧
    get_weather (get_weather initState 600 .error).1 601 .error =
      ((get_weather initState 600 .error).1, false) ∧
    (get_weather (get_weather initState 600 .error).1 1201 .error).2 =
      true := by
  have h := weather_throttle initState 600 .error .error .error
    (by norm_num [initState])
  norm_num at h
  exact ⟨h.2.1, h.2.2.1, h.2.2.2⟩

/-- Claim C4, confirmed.  The safety layer evaluates its rules in the
fixed order saturation, heat, salinity, optimal; only the first matching
rule applies, and in particular with `avg_soil = 85` and `avg_temp = 40`
the result is the saturation lock, never heat stress. -/
theorem safety_precedence :
    (∀ (s t : ℚ) (n k : Option ℚ), s > 80 →
      safety_layer s t n k =
        .ok (true, "Saturation Lock", "Soil too wet! Pump disabled.")) ∧
    (∀ (s t : ℚ) (n k : Option ℚ), ¬ s > 80 → t > 35 →
      safety_layer s t n k =
        .ok (true, "Heat Stress", "High Temp! Watering paused.")) ∧
    (∀ (s t n k : ℚ), ¬ s > 80 → ¬ t > 35 → (n > 200 ∨ k > 200) →
      safety_layer s t (some n) (some k) =
        .ok (true, "Salinity Risk", "Nutrient Burn Risk! Flush soil.")) ∧
    (∀ (s t n k : ℚ), ¬ s > 80 → ¬ t > 35 → ¬ n > 200 → ¬ k > 200 →
      safety_layer s t (some n) (some k) =
        .ok (false, "Optimal", "System Normal")) ∧
    (∀ (n k : Option ℚ),
      safety_layer 85 40 n k =
        .ok (true, "Saturation Lock", "Soil too wet! Pump disabled.")) := by
  refine ⟨?_, ?_, ?_, ?_, ?_⟩
  · intro s t n k hs
    simp [safety_layer, hs]
  · intro s t n k hs ht
    simp [safety_layer, hs, ht]
  · intro s t n k hs ht hnk
    rcases hnk with hn | hk
    · simp [safety_layer, hs, ht, hn]
    · by_cases hn : n > 200
      · simp [safety_layer, hs, ht, hn]
      · simp [safety_layer, hs, ht, hn, hk]
  · intro s t n k hs ht hn hk
    simp [safety_layer, hs, ht, hn, hk]
  · intro n k
    simp [safety_layer]
    norm_num

/-- Witness for C4 at concrete inputs: `avg_soil = 85`, `avg_temp = 40`
yields the saturation lock. -/
theorem safety_precedence_witness :
    safety_layer 85 40 (some 50) (some 50) =
      .ok (true, "Saturation Lock", "Soil too wet! Pump disabled.") :=
  safety_precedence.2.2.2.2 (some 50) (some 50)

/-- Claim C2, confirmed.  For a continuous activation request (pump
request true, lock off) with cycles starting at time 0: every cycle at a
time up to 10 seconds keeps the pump on with the normal alert; the cycle
at a time past 10 seconds turns the pump off with the alert
"Pump Timeout (Safety)"; and the following cycle is a fresh Idle-to-Running
edge that resets the activation timer to that cycle's time and turns the
pump back on. -/
theorem pump_timeout_behavior (l0 t t2 : ℚ) (ts : List ℚ)
    (hts : ∀ u ∈ ts, u ≤ 10) (ht : 10 < t) :
    pump_run false l0 (0 :: (ts ++ [t, t2])) =
      ((true, "System Normal") ::
        ((ts.map fun _ => (true, "System Normal")) ++
          [(false, "Pump Timeout (Safety)"), (true, "System Normal")]),
        true, t2) := by
  have h0 : pump_update false l0 true 0 = (true, 0, false) := by
    norm_num [pump_update]
  have happ := pump_run_append ts [t, t2] true 0
  have hsteady := pump_run_steady ts hts
  have htail : pump_run true 0 [t, t2] =
      ([(false, "Pump Timeout (Safety)"), (true, "System Normal")],
        true, t2) := by
    have h1 : pump_update true 0 true t = (false, 0, true) := by
      simp [pump_update, sub_zero, ht]
    have h2 : pump_update false 0 true t2 = (true, t2, false) := by
      norm_num [pump_update]
    simp [pump_run, h1, h2]
  simp only [pump_run, h0]
  rw [happ, hsteady]
  simp [htail]

/-- Witness for C2 with cycles at times 0, 5, 10, 11, 12: the pump is on
at 0, 5 and 10, off at 11 with the timeout alert, and on again at 12
(the timer restarts at 12). -/
theorem pump_timeout_behavior_witness :
    pump_run false 0 [0, 5, 10, 11, 12] =
      ([(true, "System Normal"), (true, "System Normal"),
        (true, "System Normal"), (false, "Pump Timeout (Safety)"),
        (true, "System Normal")], true, 12) := by
  have h := pump_timeout_behavior 0 11 12 [5, 10]
    (by intro u hu; fin_cases hu <;> norm_num) (by norm_num)
  simpa using h

/-- Claim C7, confirmed.  For any sequence of at least 2 appended
samples, the smoothing window holds exactly the last min(5, count)
values in arrival order (FIFO eviction of the oldest), and the mean used
by the engine is the arithmetic mean of those values. -/
theorem smoothing_window (xs : List ℚ) (h2 : 2 ≤ xs.length) :
    windowFold xs = xs.drop (xs.length - 5) ∧
    (windowFold xs).length = min 5 xs.length ∧
    bufMean (windowFold xs) =
      (xs.drop (xs.length - 5)).sum / ((min 5 xs.length : ℕ) : ℚ) := by
  have he := windowFold_eq xs
  have hlen : (xs.drop (xs.length - 5)).length = min 5 xs.length := by
    simp only [List.length_drop]
    omega
  refine ⟨he, by rw [he, hlen], ?_⟩
  simp only [bufMean]
  rw [he, hlen]

/-- Witness for C7 on the sequence 1..6: the window keeps the last five
values 2..6 and the mean is 4. -/
theorem smoothing_window_witness :
    windowFold [1, 2, 3, 4, 5, 6] = [2, 3, 4, 5, 6] ∧
    bufMean (windowFold [1, 2, 3, 4, 5, 6]) = 4 := by
  have h := smoothing_window [1, 2, 3, 4, 5, 6] (by norm_num)
  refine ⟨?_, ?_⟩
  · rw [h.1]
    simp
  · rw [h.2.2]
    norm_num

/-- Claim C8, confirmed.  A cycle observed while the soil window holds
fewer than 2 values (after the append) terminates early: the only state
change is the three smoothing-window appends — no weather refresh, no
pump or lock change, no alert change — and no output record is
produced. -/
theorem early_return_no_mutation (fexp : ℚ → ℚ) (st : PlantState)
    (soil temp light : ℚ) (n p k : Option ℚ) (now : ℚ) (r : FetchResult)
    (h : (dequeAppend st.soil_buffer soil).length < 2) :
    sensor_data fexp st ⟨some soil, some temp, some light, n, p, k⟩ now r =
      ({ st with
          soil_buffer := dequeAppend st.soil_buffer soil
          temp_buffer := dequeAppend st.temp_buffer temp
          light_buffer := dequeAppend st.light_buffer light }, .ok none) := by
  simp only [sensor_data]
  rw [if_pos h]

/-- Witness for C8: the very first cycle only appends to the three
buffers and produces nothing. -/
theorem early_return_no_mutation_witness :
    (dequeAppend initState.soil_buffer 1).length < 2 ∧
    sensor_data (fun x => x) initState
        ⟨some 1, some 2, some 3, none, none, none⟩ 0 .error =
      ({ initState with
          soil_buffer := [1]
          temp_buffer := [2]
          light_buffer := [3] }, .ok none) := by
  have hlen : (dequeAppend initState.soil_buffer 1).length < 2 := by
    norm_num [dequeAppend, initState]
  refine ⟨hlen, ?_⟩
  have h := early_return_no_mutation (fun x => x) initState 1 2 3
    none none none 0 .error hlen
  simpa [dequeAppend, initState] using h

/-- Claim C3, code bug.  The handler performs no input validation: on a
record that has `soil_moisture` but no `temperature` key, the soil
buffer is already mutated (the 50 is appended) before the KeyError on
`temperature` is raised, and the error escapes the handler — the cycle
is neither rejected before buffer mutation nor handled locally. -/
theorem missing_field_partial_mutation :
    sensor_data (fun x => x) initState
        ⟨some 50, none, some 1, some 1, some 1, some 1⟩ 0 .error =
      ({ initState with soil_buffer := [50] },
        .error "KeyError: temperature") := by
  norm_num [sensor_data, dequeAppend, initState]

/-- Claim C5, confirmed.  With the lock off, the intelligence layer sets
the watering threshold to 20 when the weather condition is "Rain", else
to 50 when the computed vpd exceeds 1.2, else to the default 40; it
requests the pump exactly when the smoothed soil is below the threshold,
labelling the cycle "Critical: Pulse Irrigation", and otherwise keeps
the branch label ("Raining (Passive)", "High Transpiration", or the
label the safety layer left).  With the lock on, the layer is skipped
and the pump is forced off (and the vpd is never computed, so the
published vpd is 0). -/
theorem intelligence_policy (fexp : ℚ → ℚ) :
    (∀ (a t hu : ℚ) (c d0 : String),
      (intelligence_layer fexp a t hu c d0).watering_threshold =
        if c = "Rain" then 20
        else if calculate_vpd fexp t hu > 1.2 then 50 else 40) ∧
    (∀ (a t hu : ℚ) (c d0 : String),
      ((intelligence_layer fexp a t hu c d0).pump_request = true ↔
        a < (intelligence_layer fexp a t hu c d0).watering_threshold)) ∧
    (∀ (a t hu : ℚ) (c d0 : String),
      (intelligence_layer fexp a t hu c d0).pump_request = true →
        (intelligence_layer fexp a t hu c d0).decision =
          "Critical: Pulse Irrigation") ∧
    (∀ (a t hu : ℚ) (c d0 : String),
      (intelligence_layer fexp a t hu c d0).pump_request = false →
        (intelligence_layer fexp a t hu c d0).decision =
          if c = "Rain" then "Raining (Passive)"
          else if calculate_vpd fexp t hu > 1.2 then "High Transpiration"
          else d0) ∧
    (∀ (st : PlantState) (msg : SensorMsg) (now : ℚ) (r : FetchResult)
      (st2 : PlantState) (out : OutputPayload),
      sensor_data fexp st msg now r = (st2, .ok (some out)) →
      st2.pump_lock = true → out.pump_active = false ∧ out.vpd = 0) := by
  refine ⟨?_, ?_, ?_, ?_, ?_⟩
  · intro a t hu c d0
    by_cases h1 : c = "Rain"
    · by_cases h3 : a < (20 : ℚ) <;> simp [intelligence_layer, h1, h3]
    · by_cases h2 : calculate_vpd fexp t hu > 1.2
      · by_cases h3 : a < (50 : ℚ) <;> simp [intelligence_layer, h1, h2, h3]
      · by_cases h3 : a < (40 : ℚ) <;> simp [intelligence_layer, h1, h2, h3]
  · intro a t hu c d0
    by_cases h1 : c = "Rain"
    · by_cases h3 : a < (20 : ℚ) <;> simp [intelligence_layer, h1, h3]
    · by_cases h2 : calculate_vpd fexp t hu > 1.2
      · by_cases h3 : a < (50 : ℚ) <;> simp [intelligence_layer, h1, h2, h3]
      · by_cases h3 : a < (40 : ℚ) <;> simp [intelligence_layer, h1, h2, h3]
  · exact fun a t hu c d0 =>
      intelligence_layer_request_decision fexp a t hu c d0
  · intro a t hu c d0
    by_cases h1 : c = "Rain"
    · by_cases h3 : a < (20 : ℚ) <;> simp [intelligence_layer, h1, h3]
    · by_cases h2 : calculate_vpd fexp t hu > 1.2
      · by_cases h3 : a < (50 : ℚ) <;> simp [intelligence_layer, h1, h2, h3]
      · by_cases h3 : a < (40 : ℚ) <;> simp [intelligence_layer, h1, h2, h3]
  · intro st msg now r st2 out h hlock
    exact (sensor_data_ok_facts fexp st msg now r st2 out h).1 hlock

/-- Witness for C5 at concrete inputs: smoothed soil 30, no rain, vpd 0,
so the threshold is the default 40, the pump is requested and the cycle
is labelled critical. -/
theorem intelligence_policy_witness :
    (intelligence_layer (fun _ => 0) 30 28 70 "Clouds" "Optimal").decision =
      "Critical: Pulse Irrigation" :=
  (intelligence_policy (fun _ => 0)).2.2.1 30 28 70 "Clouds" "Optimal"
    (by simp [intelligence_layer, calculate_vpd]; norm_num)

/-- Claim C9, confirmed.  In every published record, the weather.vpd
field is the vapor pressure deficit — computed from the smoothed
temperature of the cycle and the cached outside humidity — rounded to 2
decimals when the lock is off, and 0 when the lock is on (the vpd was
not computed that cycle). -/
theorem output_vpd_field (fexp : ℚ → ℚ) (st : PlantState) (msg : SensorMsg)
    (now : ℚ) (r : FetchResult) (st2 : PlantState) (out : OutputPayload)
    (h : sensor_data fexp st msg now r = (st2, .ok (some out))) :
    out.vpd = if st2.pump_lock = true then 0
      else round2 (calculate_vpd fexp st2.last_sent_temp
        st2.outside_humidity) := by
  have hf := sensor_data_ok_facts fexp st msg now r st2 out h
  cases hl : st2.pump_lock with
  | false => simpa using (hf.2 hl).1
  | true => simpa using (hf.1 hl).2

/-- Claim C10, confirmed.  After every successfully published cycle, if
the pump is active then the decision label is "Critical: Pulse
Irrigation" and the safety lock is off. -/
theorem pump_active_implies_critical (fexp : ℚ → ℚ) (st : PlantState)
    (msg : SensorMsg) (now : ℚ) (r : FetchResult) (st2 : PlantState)
    (out : OutputPayload)
    (h : sensor_data fexp st msg now r = (st2, .ok (some out)))
    (hp : out.pump_active = true) :
    out.algorithm_state = "Critical: Pulse Irrigation" ∧
      st2.pump_lock = false := by
  have hf := sensor_data_ok_facts fexp st msg now r st2 out h
  cases hl : st2.pump_lock with
  | true =>
    rw [(hf.1 hl).1] at hp
    exact absurd hp (by simp)
  | false =>
    exact ⟨(hf.2 hl).2 hp, rfl⟩

/-- Concrete two-sample scenario shared by the C9/C10 witnesses: state
after one warm-up sample. -/
def st0W : PlantState :=
  { initState with
      soil_buffer := [30]
      temp_buffer := [28]
      light_buffer := [100] }

/-- The second sample of the witness scenario. -/
def msgW : SensorMsg :=
  ⟨some 30, some 28, some 100, some 50, some 50, some 50⟩

/-- The state after the witness cycle. -/
def st2W : PlantState :=
  { soil_buffer := [30, 30]
    temp_buffer := [28, 28]
    light_buffer := [100, 100]
    last_sent_temp := 28
    last_sent_soil := 30
    pump_status := true
    pump_lock := false
    last_pump_time := 1000
    alert_message := "System Normal"
    battery_level := 100
    weather_condition := "Clouds"
    outside_temp := 30
    outside_humidity := 70
    last_weather_fetch := 1000 }

/-- The record published by the witness cycle. -/
def outW : OutputPayload :=
  { timestamp := 1000
    soil := 30
    temp := 28
    light := 100
    npk := (50, 50, 50)
    weather_condition := "Clouds"
    weather_temp := 30
    weather_humidity := 70
    vpd := 0
    pump_active := true
    algorithm_state := "Critical: Pulse Irrigation"
    alert := "System Normal"
    battery_level := 85 }

theorem cycle_scenario_eq :
    sensor_data (fun _ => 0) st0W msgW 1000 .error =
      (st2W, .ok (some outW)) := by
  norm_num [sensor_data, dequeAppend, bufMean, get_weather, safety_layer,
    intelligence_layer, calculate_vpd, pump_update, round1, round2,
    st0W, msgW, initState, st2W, outW]
  simp
  norm_num

/-- Witness for C9 on the concrete scenario: the lock is off and the
published vpd is the rounded computed vpd (0 for the constant-zero
exponential). -/
theorem output_vpd_field_witness :
    outW.vpd = if st2W.pump_lock = true then 0
      else round2 (calculate_vpd (fun _ => 0) st2W.last_sent_temp
        st2W.outside_humidity) :=
  output_vpd_field (fun _ => 0) st0W msgW 1000 .error st2W outW
    cycle_scenario_eq

/-- Witness for C10 on the concrete scenario: the pump is active, the
label is critical irrigation and the lock is off. -/
theorem pump_active_implies_critical_witness :
    outW.algorithm_state = "Critical: Pulse Irrigation" ∧
      st2W.pump_lock = false :=
  pump_active_implies_critical (fun _ => 0) st0W msgW 1000 .error st2W outW
    cycle_scenario_eq (by norm_num [outW])

end IoTServer
